import Mathlib

/-!
Shallow embedding of the dependency-injection resolution engine of the
`injectable` repository, translated from
`src/injectable/injection/injection_utils.py`.

Python sets of injectable records become `Finset Injectable`; Python dicts
become association lists queried through `dictGet` (Python's `dict.get`,
which yields `None` for a missing key, becomes an `Option` result); the
process-wide state `InjectionContainer.NAMESPACES` / `InjectionContainer.GROUPS`
becomes an explicit `InjectionContainer` value passed to each function; a
Python function that may raise becomes a function into `Except`.
-/

/-- An injectable record: `id` models Python reference identity (two distinct
registrations are never equal even with identical fields), `group` the
optional group label, `primary` the disambiguation flag. -/
structure Injectable where
  id : Nat
  group : Option String
  primary : Bool
deriving DecidableEq, Repr

/-- The enum `RegistryType` of `injection_utils.py`. -/
inductive RegistryType where
  | CLASS
  | QUALIFIER
deriving DecidableEq, Repr

/-- The `value` of each `RegistryType` member, as the Python enum declares it. -/
def RegistryType.value : RegistryType → String
  | .CLASS => "class"
  | .QUALIFIER => "qualifier"

/-- A dependency key: in Python it is either a type (`Type[T]`) or a string
qualifier; `isinstance(dependency, str)` distinguishes the two, so the key is
a tagged union of a type identity and a string. -/
inductive DepKey where
  | cls (typeId : Nat)
  | qual (s : String)
deriving DecidableEq, Repr

/-- `get_dependency_registry_type`: `RegistryType.QUALIFIER if
isinstance(dependency, str) else RegistryType.CLASS`. -/
def get_dependency_registry_type : DepKey → RegistryType
  | .qual _ => .QUALIFIER
  | .cls _ => .CLASS

/-- Python `d.get(k)`: the value stored under `k`, or `None` (here `none`)
when the key is absent. -/
def dictGet {α β : Type} [DecidableEq α] : List (α × β) → α → Option β
  | [], _ => none
  | (a, b) :: rest, k => if a = k then some b else dictGet rest k

/-- A namespace of the injection container: its two registries, each a dict
from a dependency key to the set of injectable records registered under it.
(Python dicts are heterogeneous, so both registries share the key type.) -/
structure Namespace where
  class_registry : List (DepKey × Finset Injectable)
  qualifier_registry : List (DepKey × Finset Injectable)
deriving DecidableEq

/-- The process-wide state of `InjectionContainer` that `injection_utils.py`
reads: the `NAMESPACES` dict and the optional `GROUPS` list. -/
structure InjectionContainer where
  NAMESPACES : List (String × Namespace)
  GROUPS : Option (List String)
deriving DecidableEq

/-- The registry the Python conditional selects:
`injection_namespace.class_registry if registry_type is RegistryType.CLASS
else injection_namespace.qualifier_registry`. -/
def registry_of (registry_type : RegistryType) (injection_namespace : Namespace) :
    List (DepKey × Finset Injectable) :=
  match registry_type with
  | .CLASS => injection_namespace.class_registry
  | .QUALIFIER => injection_namespace.qualifier_registry

/-- Outcome of `get_namespace_injectables`: the returned value (`none` models
Python `None`, `some s` a returned set) and whether the empty-container
warning was logged. -/
structure LookupResult where
  result : Option (Finset Injectable)
  warned : Bool
deriving DecidableEq

/-- `get_namespace_injectables`, line by line: warn when
`len(InjectionContainer.NAMESPACES) == 0`; `NAMESPACES.get(namespace)` is
falsy exactly when the namespace is absent (a `Namespace` object is truthy),
in which case `set()` is returned; otherwise the selected registry is probed
with `registry.get(dependency_name)` and that value — which is Python `None`
when the key is absent — is returned unchanged. -/
def get_namespace_injectables (container : InjectionContainer)
    (dependency_name : DepKey) (registry_type : RegistryType) (ns : String) :
    LookupResult :=
  let warned := container.NAMESPACES.length == 0
  match dictGet container.NAMESPACES ns with
  | none => { result := some ∅, warned := warned }
  | some injection_namespace =>
      let registry := registry_of registry_type injection_namespace
      { result := dictGet registry dependency_name, warned := warned }

/-- State-passing form of `get_namespace_injectables`: the Python body
contains only reads (`len`, two `dict.get` calls, a log call), no assignment
to any container field, so the post-state is the pre-state. -/
def get_namespace_injectables_st (container : InjectionContainer)
    (dependency_name : DepKey) (registry_type : RegistryType) (ns : String) :
    InjectionContainer × LookupResult :=
  (container, get_namespace_injectables container dependency_name registry_type ns)

/-- Python `xs or []` for an optional list: `[]` when the value is `None`
(or already the falsy empty list), the list itself otherwise. -/
def or_empty : Option (List String) → List String
  | none => []
  | some xs => xs

/-- Python membership `g in gs` of an injectable's optional group in a list
of group names: for `g = None` this is `False` (the lists hold strings). -/
def group_mem : Option String → List String → Bool
  | some s, gs => decide (s ∈ gs)
  | none, _ => false

/-- `_filter_by_container_groups`: with
`container_groups = InjectionContainer.GROUPS or []`, return `matches_`
unchanged when `container_groups` is falsy or no element of `matches_` has its
group in `container_groups` (the `any` of the comprehension is over truthy
objects, so it holds iff the comprehension is nonempty); otherwise keep the
injectables whose group `is None` or is in `container_groups`. -/
def _filter_by_container_groups (GROUPS : Option (List String))
    (matches_ : Finset Injectable) : Finset Injectable :=
  if or_empty GROUPS = [] ∨
      ¬ ∃ i ∈ matches_, group_mem i.group (or_empty GROUPS) = true then
    matches_
  else
    matches_.filter (fun inj =>
      inj.group = none ∨ group_mem inj.group (or_empty GROUPS) = true)

/-- `_filter_by_group_and_exclude`: with `exclude = exclude_groups or []`,
keep `inj` iff `(group is None or inj.group == group) and inj.group not in
exclude`. -/
def _filter_by_group_and_exclude (matches_ : Finset Injectable)
    (group : Option String) (exclude_groups : Option (List String)) :
    Finset Injectable :=
  matches_.filter (fun inj =>
    (group = none ∨ inj.group = group) ∧
      group_mem inj.group (or_empty exclude_groups) = false)

/-- `filter_by_group`: Stage A (`_filter_by_container_groups`, reading the
global `GROUPS`, here explicit) then Stage B (`_filter_by_group_and_exclude`). -/
def filter_by_group (GROUPS : Option (List String)) (matches_ : Finset Injectable)
    (group : Option String) (exclude_groups : Option (List String)) :
    Finset Injectable :=
  _filter_by_group_and_exclude (_filter_by_container_groups GROUPS matches_)
    group exclude_groups

/-- The payload of `InjectionError(registry_type.value, dependency_name,
matches_)`, with its three constructor arguments in order. -/
structure InjectionError where
  registry_type_value : String
  dependency_name : DepKey
  matches_ : Finset Injectable
deriving DecidableEq

/-- `resolve_single_injectable`: when `len(matches_) == 1` the `for` loop
returns the set's sole element (extracted here with `Finset.choose`, the
unique member of a cardinality-one set); otherwise
`primary_matches = [inj for inj in matches_ if inj.primary]` is built, an
`InjectionError` is raised when `len(primary_matches) != 1`, and
`primary_matches[0]` — with length one, the unique primary member — is
returned otherwise. -/
def resolve_single_injectable (dependency_name : DepKey)
    (registry_type : RegistryType) (matches_ : Finset Injectable) :
    Except InjectionError Injectable :=
  if h : matches_.card = 1 then
    .ok (matches_.choose (fun _ => True)
      (by
        obtain ⟨a, ha⟩ := Finset.card_eq_one.mp h
        subst ha
        exact ⟨a, ⟨Finset.mem_singleton_self a, trivial⟩,
          fun b hb => Finset.mem_singleton.mp hb.1⟩))
  else
    if hp : (matches_.filter (fun inj => inj.primary = true)).card ≠ 1 then
      .error ⟨registry_type.value, dependency_name, matches_⟩
    else
      .ok ((matches_.filter (fun inj => inj.primary = true)).choose (fun _ => True)
        (by
          obtain ⟨a, ha⟩ := Finset.card_eq_one.mp (not_not.mp hp)
          rw [ha]
          exact ⟨a, ⟨Finset.mem_singleton_self a, trivial⟩,
            fun b hb => Finset.mem_singleton.mp hb.1⟩))

/-! ## General lemmas about the group filter -/

/-- Membership in Stage A: an element of the result is an element of the
input; when Stage A is not a no-op (nonempty active-groups list with at least
one candidate whose group is in it) the element also satisfies the Stage A
predicate. -/
theorem mem_filter_by_container_groups (GROUPS : Option (List String))
    (matches_ : Finset Injectable) (x : Injectable) :
    x ∈ _filter_by_container_groups GROUPS matches_ ↔
      x ∈ matches_ ∧
        ((or_empty GROUPS ≠ [] ∧
            ∃ i ∈ matches_, group_mem i.group (or_empty GROUPS) = true) →
          (x.group = none ∨ group_mem x.group (or_empty GROUPS) = true)) := by
  unfold _filter_by_container_groups
  by_cases hc : or_empty GROUPS = [] ∨
      ¬ ∃ i ∈ matches_, group_mem i.group (or_empty GROUPS) = true
  · rw [if_pos hc]
    constructor
    · intro hx
      refine ⟨hx, fun htr => ?_⟩
      rcases hc with hc | hc
      · exact absurd hc htr.1
      · exact absurd htr.2 hc
    · exact fun h => h.1
  · rw [if_neg hc]
    push_neg at hc
    rw [Finset.mem_filter]
    constructor
    · rintro ⟨hx, hp⟩
      exact ⟨hx, fun _ => hp⟩
    · rintro ⟨hx, hp⟩
      exact ⟨hx, hp hc⟩

/-- Membership in Stage B is exactly the Stage B predicate. -/
theorem mem_filter_by_group_and_exclude (matches_ : Finset Injectable)
    (group : Option String) (exclude_groups : Option (List String))
    (x : Injectable) :
    x ∈ _filter_by_group_and_exclude matches_ group exclude_groups ↔
      x ∈ matches_ ∧ (group = none ∨ x.group = group) ∧
        group_mem x.group (or_empty exclude_groups) = false := by
  unfold _filter_by_group_and_exclude
  rw [Finset.mem_filter]

/-- Membership in the full two-stage filter. -/
theorem mem_filter_by_group (GROUPS : Option (List String))
    (matches_ : Finset Injectable) (group : Option String)
    (exclude_groups : Option (List String)) (x : Injectable) :
    x ∈ filter_by_group GROUPS matches_ group exclude_groups ↔
      x ∈ matches_ ∧
        ((or_empty GROUPS ≠ [] ∧
            ∃ i ∈ matches_, group_mem i.group (or_empty GROUPS) = true) →
          (x.group = none ∨ group_mem x.group (or_empty GROUPS) = true)) ∧
        (group = none ∨ x.group = group) ∧
        group_mem x.group (or_empty exclude_groups) = false := by
  unfold filter_by_group
  rw [mem_filter_by_group_and_exclude, mem_filter_by_container_groups]
  tauto

/-! ## The claims -/

/-- C2: Stage A of the group filter returns the candidate set unchanged when
the global `GROUPS` is `None` or empty, or when no candidate's group is a
member of `GROUPS`; otherwise it returns exactly the candidates whose group
is `None` or whose group is a member of `GROUPS`. (The first conjunct records
that `or_empty GROUPS = []` says precisely "`GROUPS` is `None` or empty".) -/
theorem filter_by_container_groups_cases (GROUPS : Option (List String))
    (matches_ : Finset Injectable) :
    (or_empty GROUPS = [] ↔ GROUPS = none ∨ GROUPS = some []) ∧
    ((or_empty GROUPS = [] ∨
        ∀ i ∈ matches_, group_mem i.group (or_empty GROUPS) = false) →
      _filter_by_container_groups GROUPS matches_ = matches_) ∧
    ((or_empty GROUPS ≠ [] ∧
        ∃ i ∈ matches_, group_mem i.group (or_empty GROUPS) = true) →
      _filter_by_container_groups GROUPS matches_ =
        matches_.filter (fun inj =>
          inj.group = none ∨ group_mem inj.group (or_empty GROUPS) = true)) := by
  refine ⟨?_, ?_, ?_⟩
  · cases GROUPS <;> simp [or_empty]
  · intro h
    unfold _filter_by_container_groups
    rcases h with h | h
    · rw [if_pos (Or.inl h)]
    · have hne : ¬ ∃ i ∈ matches_, group_mem i.group (or_empty GROUPS) = true := by
        rintro ⟨i, hi, hgi⟩
        rw [h i hi] at hgi
        exact Bool.false_ne_true hgi
      rw [if_pos (Or.inr hne)]
  · intro h
    unfold _filter_by_container_groups
    rw [if_neg (by push_neg; exact h)]

/-- C2 witness: with active groups `["A"]` and candidates in groups `"A"` and
`"B"`, Stage A is the announced filter. -/
theorem filter_by_container_groups_cases_witness :
    _filter_by_container_groups (some ["A"])
        {(⟨0, some "A", false⟩ : Injectable), ⟨1, some "B", false⟩} =
      Finset.filter (fun inj =>
          inj.group = none ∨ group_mem inj.group (or_empty (some ["A"])) = true)
        {(⟨0, some "A", false⟩ : Injectable), ⟨1, some "B", false⟩} :=
  (filter_by_container_groups_cases (some ["A"]) _).2.2 ⟨by decide, by decide⟩

/-- C3: Stage B keeps a candidate iff (`required_group` is `None` or the
candidate's group equals it) and the candidate's group is not in the
exclusion list (`None` treated as empty); consequently a required group that
is also excluded yields the empty set. -/
theorem filter_by_group_and_exclude_spec :
    (∀ (matches_ : Finset Injectable) (group : Option String)
        (exclude_groups : Option (List String)) (inj : Injectable),
      inj ∈ _filter_by_group_and_exclude matches_ group exclude_groups ↔
        inj ∈ matches_ ∧ (group = none ∨ inj.group = group) ∧
          group_mem inj.group (or_empty exclude_groups) = false) ∧
    (∀ GROUPS : Option (List String),
      filter_by_group GROUPS {(⟨0, some "A", false⟩ : Injectable)}
        (some "A") (some ["A"]) = ∅) := by
  constructor
  · exact mem_filter_by_group_and_exclude
  · intro GROUPS
    rw [Finset.eq_empty_iff_forall_not_mem]
    intro x hx
    rw [mem_filter_by_group] at hx
    obtain ⟨hm, -, -, hex⟩ := hx
    rw [Finset.mem_singleton] at hm
    subst hm
    revert hex
    decide

/-- C4: the resolver returns the sole element of a one-element set regardless
of its primary flag; otherwise it returns the unique primary candidate when
exactly one exists; in every other case — including the empty set, zero
primary candidates, and two or more primary candidates — it raises an
`InjectionError` carrying the registry kind's value, the dependency key and
the full candidate set. -/
theorem resolve_single_injectable_spec (dependency_name : DepKey)
    (registry_type : RegistryType) (matches_ : Finset Injectable) :
    (∀ x, matches_ = {x} →
      resolve_single_injectable dependency_name registry_type matches_ =
        .ok x) ∧
    (matches_.card ≠ 1 →
      ∀ x, matches_.filter (fun inj => inj.primary = true) = {x} →
        resolve_single_injectable dependency_name registry_type matches_ =
          .ok x) ∧
    (matches_.card ≠ 1 →
      (matches_.filter (fun inj => inj.primary = true)).card ≠ 1 →
        resolve_single_injectable dependency_name registry_type matches_ =
          .error ⟨registry_type.value, dependency_name, matches_⟩) := by
  have hchoose : ∀ (x : Injectable)
      (hp : ∃! a, a ∈ ({x} : Finset Injectable) ∧ (fun _ => True) a),
      ({x} : Finset Injectable).choose (fun _ => True) hp = x :=
    fun x hp => Finset.mem_singleton.mp (Finset.choose_mem _ _ hp)
  refine ⟨?_, ?_, ?_⟩
  · intro x hx
    subst hx
    unfold resolve_single_injectable
    rw [dif_pos (Finset.card_singleton x), hchoose]
  · intro hcard x hfx
    unfold resolve_single_injectable
    rw [dif_neg hcard]
    simp only [hfx]
    rw [dif_neg (not_not_intro (Finset.card_singleton x)), hchoose]
  · intro h1 h2
    unfold resolve_single_injectable
    rw [dif_neg h1, dif_pos h2]

/-- C4 witness: the three branches at concrete inputs — a singleton resolves
to its element, a unique primary wins over a non-primary, the empty set
raises the error with full context. -/
theorem resolve_single_injectable_spec_witness :
    resolve_single_injectable (DepKey.qual "dep") RegistryType.CLASS
        {(⟨0, some "A", false⟩ : Injectable)} = .ok ⟨0, some "A", false⟩ ∧
    resolve_single_injectable (DepKey.qual "dep") RegistryType.CLASS
        {(⟨0, none, true⟩ : Injectable), ⟨1, none, false⟩} =
      .ok ⟨0, none, true⟩ ∧
    resolve_single_injectable (DepKey.qual "dep") RegistryType.CLASS
        (∅ : Finset Injectable) =
      .error ⟨RegistryType.CLASS.value, DepKey.qual "dep", ∅⟩ :=
  ⟨(resolve_single_injectable_spec _ _ _).1 _ rfl,
   (resolve_single_injectable_spec _ _ _).2.1 (by decide) _ (by decide),
   (resolve_single_injectable_spec _ _ _).2.2 (by decide) (by decide)⟩

/-- C5: a string dependency key maps to the QUALIFIER registry kind and a
type key to the CLASS registry kind, and on an existing namespace the lookup
probes the qualifier registry exactly under QUALIFIER and the class registry
exactly under CLASS, regardless of the namespace contents. -/
theorem registry_routing_spec :
    (∀ s, get_dependency_registry_type (DepKey.qual s) =
      RegistryType.QUALIFIER) ∧
    (∀ t, get_dependency_registry_type (DepKey.cls t) = RegistryType.CLASS) ∧
    (∀ (container : InjectionContainer) (k : DepKey) (ns : String)
        (nsIdx : Namespace), dictGet container.NAMESPACES ns = some nsIdx →
      (get_namespace_injectables container k RegistryType.QUALIFIER ns).result =
          dictGet nsIdx.qualifier_registry k ∧
        (get_namespace_injectables container k RegistryType.CLASS ns).result =
          dictGet nsIdx.class_registry k) := by
  refine ⟨fun s => rfl, fun t => rfl, ?_⟩
  intro container k ns nsIdx h
  unfold get_namespace_injectables
  rw [h]
  exact ⟨rfl, rfl⟩

/-- C5 witness: on a one-namespace container the qualifier lookup reads the
qualifier registry's entry. -/
theorem registry_routing_spec_witness :
    (get_namespace_injectables
        ⟨[("ns", ⟨[], [(DepKey.qual "q", {(⟨0, none, false⟩ : Injectable)})]⟩)],
          none⟩
        (DepKey.qual "q") RegistryType.QUALIFIER "ns").result =
      dictGet [(DepKey.qual "q", {(⟨0, none, false⟩ : Injectable)})]
        (DepKey.qual "q") :=
  (registry_routing_spec.2.2
    ⟨[("ns", ⟨[], [(DepKey.qual "q", {(⟨0, none, false⟩ : Injectable)})]⟩)], none⟩
    (DepKey.qual "q") "ns"
    ⟨[], [(DepKey.qual "q", {(⟨0, none, false⟩ : Injectable)})]⟩
    (by decide)).1

/-- C1 counterexample: in a container whose namespace `"ns"` exists with
empty registries, looking up a key that is not present yields `registry.get`s
`None` (here `none`) — a non-set sentinel — and not the empty set the claim
announces. -/
theorem lookup_missing_key_counterexample :
    (get_namespace_injectables ⟨[("ns", ⟨[], []⟩)], none⟩ (DepKey.qual "k")
        RegistryType.QUALIFIER "ns").result = none ∧
      (get_namespace_injectables ⟨[("ns", ⟨[], []⟩)], none⟩ (DepKey.qual "k")
        RegistryType.QUALIFIER "ns").result ≠ some (∅ : Finset Injectable) :=
  ⟨rfl, by decide⟩

/-- C1 amended: the lookup never raises; when the namespace is absent it
returns the empty set, and when the namespace exists it returns exactly what
`registry.get(dependency_name)` yields on the selected registry — the stored
set when the key is present, and `None` (not the empty set) when the key is
absent. -/
theorem lookup_result_spec (container : InjectionContainer) (k : DepKey)
    (rt : RegistryType) (ns : String) :
    (dictGet container.NAMESPACES ns = none →
      (get_namespace_injectables container k rt ns).result = some ∅) ∧
    (∀ nsIdx, dictGet container.NAMESPACES ns = some nsIdx →
      (get_namespace_injectables container k rt ns).result =
        dictGet (registry_of rt nsIdx) k) := by
  constructor
  · intro h
    unfold get_namespace_injectables
    rw [h]
  · intro nsIdx h
    unfold get_namespace_injectables
    rw [h]

/-- C1 witness: the two amended branches at concrete containers — an unknown
namespace gives the empty set; a known namespace with an absent key gives the
registry's `dict.get` value. -/
theorem lookup_result_spec_witness :
    (get_namespace_injectables ⟨[], none⟩ (DepKey.qual "k")
        RegistryType.CLASS "ns").result = some ∅ ∧
    (get_namespace_injectables ⟨[("ns", ⟨[], []⟩)], none⟩ (DepKey.qual "q")
        RegistryType.CLASS "ns").result =
      dictGet (registry_of RegistryType.CLASS ⟨[], []⟩) (DepKey.qual "q") :=
  ⟨(lookup_result_spec ⟨[], none⟩ (DepKey.qual "k") RegistryType.CLASS
      "ns").1 (by decide),
   (lookup_result_spec ⟨[("ns", ⟨[], []⟩)], none⟩ (DepKey.qual "q")
      RegistryType.CLASS "ns").2 ⟨[], []⟩ (by decide)⟩

/-- C6: a lookup on a namespace name with no Namespace Index returns the
empty set without failing, and when the container holds no namespaces at all
the warning is emitted while the lookup still returns the empty set. -/
theorem lookup_unknown_namespace_spec (container : InjectionContainer)
    (k : DepKey) (rt : RegistryType) (ns : String)
    (h : dictGet container.NAMESPACES ns = none) :
    (get_namespace_injectables container k rt ns).result = some ∅ ∧
    (container.NAMESPACES = [] →
      (get_namespace_injectables container k rt ns).warned = true) := by
  constructor
  · unfold get_namespace_injectables
    rw [h]
  · intro hempty
    unfold get_namespace_injectables
    rw [h, hempty]
    rfl

/-- C6 witness: the empty container at an unknown namespace returns the
empty set and warns. -/
theorem lookup_unknown_namespace_spec_witness :
    (get_namespace_injectables ⟨[], none⟩ (DepKey.qual "k")
        RegistryType.QUALIFIER "missing").result = some ∅ ∧
    (get_namespace_injectables ⟨[], none⟩ (DepKey.qual "k")
        RegistryType.QUALIFIER "missing").warned = true :=
  ⟨(lookup_unknown_namespace_spec ⟨[], none⟩ (DepKey.qual "k")
      RegistryType.QUALIFIER "missing" (by decide)).1,
   (lookup_unknown_namespace_spec ⟨[], none⟩ (DepKey.qual "k")
      RegistryType.QUALIFIER "missing" (by decide)).2 rfl⟩

/-- C7: the group filter is a pure function of its inputs, so equal inputs
give equal results definitionally; beyond that, the result is independent of
the enumeration order of the candidate set: two enumerations that are
permutations of one another build the same input set and hence the same
result set. -/
theorem filter_by_group_deterministic (GROUPS : Option (List String))
    (group : Option String) (exclude_groups : Option (List String))
    (l1 l2 : List Injectable) (h : l1.Perm l2) :
    filter_by_group GROUPS l1.toFinset group exclude_groups =
      filter_by_group GROUPS l2.toFinset group exclude_groups := by
  have hs : l1.toFinset = l2.toFinset := by
    ext a
    rw [List.mem_toFinset, List.mem_toFinset, h.mem_iff]
  rw [hs]

/-- C7 witness: two opposite enumerations of a two-element candidate set
give the same filtered set. -/
theorem filter_by_group_deterministic_witness :
    filter_by_group (some ["A"])
        [(⟨0, some "A", false⟩ : Injectable), ⟨1, some "B", false⟩].toFinset
        none none =
      filter_by_group (some ["A"])
        [(⟨1, some "B", false⟩ : Injectable), ⟨0, some "A", false⟩].toFinset
        none none :=
  filter_by_group_deterministic (some ["A"]) none none
    [⟨0, some "A", false⟩, ⟨1, some "B", false⟩]
    [⟨1, some "B", false⟩, ⟨0, some "A", false⟩] (by decide)

/-- C8: the lookup mutates nothing — in state-passing form the container
after the call (its `NAMESPACES` dict with every namespace index, and its
`GROUPS` list) is the container before it; the only extra effect recorded is
the diagnostic warning flag of the result. -/
theorem get_namespace_injectables_frame (container : InjectionContainer)
    (k : DepKey) (rt : RegistryType) (ns : String) :
    (get_namespace_injectables_st container k rt ns).1 = container ∧
    (get_namespace_injectables_st container k rt ns).1.NAMESPACES =
      container.NAMESPACES ∧
    (get_namespace_injectables_st container k rt ns).1.GROUPS =
      container.GROUPS :=
  ⟨rfl, rfl, rfl⟩

/-- C9: the group filter is idempotent — filtering a second time with the
same required group, exclusion list and global GROUPS changes nothing. -/
theorem filter_by_group_idempotent (GROUPS : Option (List String))
    (matches_ : Finset Injectable) (group : Option String)
    (exclude_groups : Option (List String)) :
    filter_by_group GROUPS (filter_by_group GROUPS matches_ group exclude_groups)
        group exclude_groups =
      filter_by_group GROUPS matches_ group exclude_groups := by
  ext x
  constructor
  · intro hx
    exact ((mem_filter_by_group GROUPS
      (filter_by_group GROUPS matches_ group exclude_groups) group
      exclude_groups x).mp hx).1
  · intro hx
    have hxc := (mem_filter_by_group GROUPS matches_ group exclude_groups x).mp hx
    rw [mem_filter_by_group]
    refine ⟨hx, fun htrig => ?_, hxc.2.2.1, hxc.2.2.2⟩
    obtain ⟨hne, i, hiF, hig⟩ := htrig
    have hiM : i ∈ matches_ :=
      ((mem_filter_by_group GROUPS matches_ group exclude_groups i).mp hiF).1
    exact hxc.2.1 ⟨hne, i, hiM, hig⟩

/-- C10: with no required group, an ungrouped candidate always survives the
full filter, whatever the global GROUPS and the exclusion list are. -/
theorem ungrouped_survives_filter (GROUPS : Option (List String))
    (matches_ : Finset Injectable) (exclude_groups : Option (List String))
    (x : Injectable) (hx : x ∈ matches_) (hg : x.group = none) :
    x ∈ filter_by_group GROUPS matches_ none exclude_groups := by
  rw [mem_filter_by_group]
  exact ⟨hx, fun _ => Or.inl hg, Or.inl rfl, by rw [hg]; rfl⟩

/-- C10 witness: an ungrouped candidate survives alongside an active-groups
list and an exclusion list that both name other groups. -/
theorem ungrouped_survives_filter_witness :
    (⟨2, none, false⟩ : Injectable) ∈
      filter_by_group (some ["A"])
        {(⟨0, some "A", false⟩ : Injectable), ⟨2, none, false⟩} none
        (some ["A", "B"]) :=
  ungrouped_survives_filter (some ["A"])
    {⟨0, some "A", false⟩, ⟨2, none, false⟩} (some ["A", "B"])
    ⟨2, none, false⟩ (by decide) rfl
